import Mathlib

/-!
Shallow embedding of the DPOD geometric correspondence and multi-instance
pose-recovery engine (src/DPOD/models_handler.py and
src/DPOD/datasets/linemod/models_handler.py), with theorems checking the
specification claims against it.

Modelling conventions:
* numpy/torch tensors are nested lists of rationals; machine floats are
  modelled by the type F below, which makes NaN and infinity propagation
  explicit (needed because normalize_to_256 can evaluate 0/0).
* Python exceptions are modelled with Except PyErr: numpy raises IndexError
  for a boolean index whose length differs from the indexed array, ValueError
  for np.hstack of arrays of different dimensionality and for .item() on an
  empty mode result, and AttributeError for attribute access on None or on a
  tuple.
* External library entry points (cv2.solvePnPRansac, cv2.Rodrigues,
  cv2.fillConvexPoly, cv2.projectPoints, np.arctan2, the scipy griddata
  lookup table, torch exp inside softmax) are modelled as parameters.
  cv2.solvePnPRansac receives the RNG seed that OpenCV fixes per call.
-/

/-- Python exception values that the embedded code can raise.  The loopFuel
value is not a Python exception: it marks exhaustion of the explicit fuel that
models the unbounded while-True loop. -/
inductive PyErr where
  | indexError (msg : String)
  | attributeError (msg : String)
  | valueError (msg : String)
  | loopFuel
deriving DecidableEq

/-- A 3d point or vector (one row of a numpy (n, 3) array). -/
structure V3 where
  x : ℚ
  y : ℚ
  z : ℚ
deriving DecidableEq

/-- A 3x3 matrix given by rows, as used for rotation matrices. -/
structure M3 where
  r0 : V3
  r1 : V3
  r2 : V3
deriving DecidableEq

/-- Model of an IEEE double: finite rational value, NaN, or signed infinity.
There is no signed zero in the model; the division cases that would depend on
the sign of zero do not occur in the embedded code paths. -/
inductive F where
  | nan : F
  | pinf : F
  | ninf : F
  | fin : ℚ → F
deriving DecidableEq

/-- Float subtraction with NaN and infinity propagation. -/
def fsub : F → F → F
  | F.nan, _ => F.nan
  | _, F.nan => F.nan
  | F.fin a, F.fin b => F.fin (a - b)
  | F.pinf, F.pinf => F.nan
  | F.pinf, _ => F.pinf
  | F.ninf, F.ninf => F.nan
  | F.ninf, _ => F.ninf
  | F.fin _, F.pinf => F.ninf
  | F.fin _, F.ninf => F.pinf

/-- Float multiplication with NaN and infinity propagation. -/
def fmul : F → F → F
  | F.nan, _ => F.nan
  | _, F.nan => F.nan
  | F.fin a, F.fin b => F.fin (a * b)
  | F.fin a, F.pinf => if 0 < a then F.pinf else if a < 0 then F.ninf else F.nan
  | F.fin a, F.ninf => if 0 < a then F.ninf else if a < 0 then F.pinf else F.nan
  | F.pinf, F.fin b => if 0 < b then F.pinf else if b < 0 then F.ninf else F.nan
  | F.ninf, F.fin b => if 0 < b then F.ninf else if b < 0 then F.pinf else F.nan
  | F.pinf, F.pinf => F.pinf
  | F.pinf, F.ninf => F.ninf
  | F.ninf, F.pinf => F.ninf
  | F.ninf, F.ninf => F.pinf

/-- Float division: 0/0 is NaN, nonzero/0 is a signed infinity (sign of the
dividend, as there is no signed zero in the model). -/
def fdiv : F → F → F
  | F.nan, _ => F.nan
  | _, F.nan => F.nan
  | F.fin a, F.fin b =>
      if b = 0 then (if a = 0 then F.nan else if 0 < a then F.pinf else F.ninf)
      else F.fin (a / b)
  | F.fin _, F.pinf => F.fin 0
  | F.fin _, F.ninf => F.fin 0
  | F.pinf, F.fin b => if b < 0 then F.ninf else F.pinf
  | F.ninf, F.fin b => if b < 0 then F.pinf else F.ninf
  | F.pinf, _ => F.nan
  | F.ninf, _ => F.nan

/-- Python float modulo (numpy %): floor-style remainder, result has the sign
of the divisor; NaN or infinite dividend gives NaN, zero divisor gives NaN. -/
def fmod : F → F → F
  | F.fin a, F.fin m =>
      if m = 0 then F.nan else F.fin (a - m * (⌊a / m⌋ : ℚ))
  | F.fin a, F.pinf => if 0 ≤ a then F.fin a else F.pinf
  | F.fin a, F.ninf => if a ≤ 0 then F.fin a else F.ninf
  | _, _ => F.nan

/-- Binary minimum of floats; NaN contaminates, matching ndarray.min(). -/
def fminB : F → F → F
  | F.nan, _ => F.nan
  | _, F.nan => F.nan
  | F.fin a, F.fin b => F.fin (min a b)
  | F.ninf, _ => F.ninf
  | _, F.ninf => F.ninf
  | F.pinf, y => y
  | x, F.pinf => x

/-- Binary maximum of floats; NaN contaminates, matching ndarray.max(). -/
def fmaxB : F → F → F
  | F.nan, _ => F.nan
  | _, F.nan => F.nan
  | F.fin a, F.fin b => F.fin (max a b)
  | F.pinf, _ => F.pinf
  | _, F.pinf => F.pinf
  | F.ninf, y => y
  | x, F.ninf => x

/-- ndarray.min() of a float array.  numpy raises on an empty array; the
embedded call sites never pass one, and the empty case is mapped to NaN. -/
def fmin : List F → F
  | [] => F.nan
  | x :: xs => xs.foldl fminB x

/-- ndarray.max() of a float array (empty case as in fmin). -/
def fmax : List F → F
  | [] => F.nan
  | x :: xs => xs.foldl fmaxB x

/-- Minimum of a rational list (reference value used to state properties of
fmin on NaN-free input); 0 on the empty list, which never occurs. -/
def listMin : List ℚ → ℚ
  | [] => 0
  | x :: xs => xs.foldl min x

/-- Maximum of a rational list (reference value for fmax). -/
def listMax : List ℚ → ℚ
  | [] => 0
  | x :: xs => xs.foldl max x

/-- ModelsHandler.normalize_to_256 from src/DPOD/models_handler.py line 93:
256 * (x - x.min()) / (x.max() - x.min()) % 256, broadcast over the array. -/
def normalize_to_256 (xs : List F) : List F :=
  xs.map fun x =>
    fmod (fdiv (fmul (F.fin 256) (fsub x (fmin xs))) (fsub (fmax xs) (fmin xs)))
      (F.fin 256)

/-- C-style float-to-int cast used by ndarray.astype(int): truncation toward
zero for finite values; NaN and infinities produce the int64 sentinel that
numpy yields on x86. -/
def ratTrunc (q : ℚ) : Int := if 0 ≤ q then ⌊q⌋ else -⌊-q⌋

/-- astype(int) on one float entry. -/
def fToInt : F → Int
  | F.fin q => ratTrunc q
  | _ => -9223372036854775808

/-- ModelsHandler.color_points from src/DPOD/models_handler.py lines 108-114:
height channel is the y coordinate, angle channel is arctan2(x, z); both are
normalized with normalize_to_256 and the rows (model_id, hc, rc) are cast to
int.  np.arctan2 is an external math function, passed in as a parameter. -/
def color_points (atan2 : ℚ → ℚ → F) (points : List V3) (model_id : Int) :
    List (Int × Int × Int) :=
  let h_colors := points.map (fun p => F.fin p.y)
  let r_colors := points.map (fun p => atan2 p.x p.z)
  let h := normalize_to_256 h_colors
  let r := normalize_to_256 r_colors
  (h.zip r).map (fun pr => (model_id, fToInt pr.1, fToInt pr.2))

/-- Concrete 3-vertex model with height extent 1 used to probe the encode and
inverse-lookup round trip: two vertices share x and z (hence the arctan2
angle) and sit at the minimal and maximal height. -/
def degModel : List V3 := [⟨1, 0, 0⟩, ⟨1, 1, 0⟩, ⟨0, 1/2, 1⟩]

/-- Color code (model_id, height code, angle code) of vertex i of degModel. -/
def cpAt (atan2 : ℚ → ℚ → F) (i : Nat) : Int × Int × Int :=
  (color_points atan2 degModel 5).getD i (0, 0, 0)

/-- Squared euclidean distance between 3d points. -/
def sqDist (a b : V3) : ℚ :=
  (a.x - b.x) ^ 2 + (a.y - b.y) ^ 2 + (a.z - b.z) ^ 2

/-- Pair each element of a list with its index. -/
def withIdx {α : Type} (xs : List α) : List (Nat × α) :=
  (List.range xs.length).zip xs

/-- A triangular face: three vertex indices. -/
abbrev Tri := Nat × Nat × Nat

/-- Componentwise vector addition. -/
def vAdd (a b : V3) : V3 := ⟨a.x + b.x, a.y + b.y, a.z + b.z⟩

/-- Scalar multiple of a vector. -/
def vScale (c : ℚ) (a : V3) : V3 := ⟨c * a.x, c * a.y, c * a.z⟩

/-- Dot product of two vectors. -/
def vDot (a b : V3) : ℚ := a.x * b.x + a.y * b.y + a.z * b.z

/-- Row vector times matrix, the points @ rotation_matrix convention of
src/DPOD/models_handler.py. -/
def rowMul (p : V3) (m : M3) : V3 :=
  ⟨p.x * m.r0.x + p.y * m.r1.x + p.z * m.r2.x,
   p.x * m.r0.y + p.y * m.r1.y + p.z * m.r2.y,
   p.x * m.r0.z + p.y * m.r1.z + p.z * m.r2.z⟩

/-- transform_points from src/DPOD/models_handler.py line 23:
points @ rotation_matrix + translation_vector. -/
def transform_points (points : List V3) (rotation_matrix : M3)
    (translation_vector : V3) : List V3 :=
  points.map (fun p => vAdd (rowMul p rotation_matrix) translation_vector)

/-- transform_points from src/DPOD/datasets/linemod/models_handler.py lines
78-81: points @ rotation_matrix.T + translation_vector followed by
points @ diag(1, -1, -1), which negates the y and z columns. -/
def transform_points_linemod (points : List V3) (rotation_matrix : M3)
    (translation_vector : V3) : List V3 :=
  points.map (fun p =>
    let q := vAdd ⟨vDot p rotation_matrix.r0, vDot p rotation_matrix.r1,
                   vDot p rotation_matrix.r2⟩ translation_vector
    ⟨q.x, -q.y, -q.z⟩)

/-- Midpoints of the faces: (v[t0] + v[t1] + v[t2]) / 3, as computed in
src/DPOD/models_handler.py lines 98-99 and 146-147. -/
def faceMidpointsOf (pts : List V3) (faces : List Tri) : List V3 :=
  faces.map (fun f =>
    vScale (1/3) (vAdd (vAdd (pts.getD f.1 ⟨0, 0, 0⟩) (pts.getD f.2.1 ⟨0, 0, 0⟩))
      (pts.getD f.2.2 ⟨0, 0, 0⟩)))

/-- np.argsort(-values): a permutation of the indices putting the values in
non-increasing order.  np.argsort's tie order (introsort) is implementation
defined; the model uses a stable sort, and every property proved about the
ordering is independent of the tie order. -/
def face_ordering (ds : List ℚ) : List Nat :=
  List.insertionSort (fun i j => ds.getD j 0 ≤ ds.getD i 0) (List.range ds.length)

/-- Camera-space depths (z coordinates) of the face midpoints of the
transformed model, the quantity argsorted on line 150 of
src/DPOD/models_handler.py and line 195 of the linemod handler. -/
def camera_depths (pts : List V3) (faces : List Tri) : List ℚ :=
  (faceMidpointsOf pts faces).map (fun p => p.z)

/-- Truncation of a projected 2d point to integer pixel coordinates
(np.array(..., dtype=np.int32) / .astype(int)). -/
def truncPt (p : ℚ × ℚ) : Int × Int := (ratTrunc p.1, ratTrunc p.2)

/-- draw_triangles from src/DPOD/models_handler.py lines 31-35 (the branch
with an explicit per-face color array): fill each triangle in list order.
cv2.fillConvexPoly is external; fill is the abstract raster update. -/
def draw_triangles {Img : Type}
    (fill : Img → ((Int × Int) × (Int × Int) × (Int × Int)) → (Int × Int × Int) → Img)
    (image : Img) (vertices : List (ℚ × ℚ)) (triangles : List Tri)
    (colors : List (Int × Int × Int)) : Img :=
  (triangles.zip colors).foldl
    (fun im tc =>
      fill im
        (truncPt (vertices.getD tc.1.1 (0, 0)), truncPt (vertices.getD tc.1.2.1 (0, 0)),
         truncPt (vertices.getD tc.1.2.2 (0, 0)))
        tc.2)
    image

/-- ModelsHandler.get_model_face_to_color_array (src/DPOD/models_handler.py
lines 103-106): color_points of the face midpoints of the untransformed
model. -/
def get_model_face_to_color_array (atan2 : ℚ → ℚ → F) (model_id : Int)
    (vertices : List V3) (triangles : List Tri) : List (Int × Int × Int) :=
  color_points atan2 (faceMidpointsOf vertices triangles) model_id

/-- ModelsHandler.draw_model from src/DPOD/models_handler.py lines 136-157:
transform the vertices by the pose, project them (cv2.projectPoints is the
external parameter project), order the faces by decreasing camera-space depth
of their midpoints, and fill the projected triangles in that order. -/
def draw_model {Img : Type}
    (fill : Img → ((Int × Int) × (Int × Int) × (Int × Int)) → (Int × Int × Int) → Img)
    (project : List V3 → List (ℚ × ℚ)) (atan2 : ℚ → ℚ → F) (img : Img)
    (model_id : Int) (vertices : List V3) (triangles : List Tri)
    (translation_vector : V3) (rotation_matrix : M3) : Img :=
  let points3d_in_reality := transform_points vertices rotation_matrix translation_vector
  let points2d_on_image := project points3d_in_reality
  let ds := camera_depths points3d_in_reality triangles
  let ordering := face_ordering ds
  let tris := ordering.map (fun k => triangles.getD k (0, 0, 0))
  let cols := ordering.map (fun k =>
    (get_model_face_to_color_array atan2 model_id vertices triangles).getD k (0, 0, 0))
  draw_triangles fill img points2d_on_image tris cols

/-- draw_poly from src/DPOD/datasets/linemod/models_handler.py lines 68-75:
fill one polygon with one color (cv2.fillConvexPoly is the external fill). -/
def draw_poly {Img : Type} (fill : Img → List (Int × Int) → (Int × Int) → Img)
    (image : Img) (vertices : List (ℚ × ℚ)) (color : Int × Int) : Img :=
  fill image (vertices.map truncPt) color

/-- ModelsHandler.draw_color_mask from
src/DPOD/datasets/linemod/models_handler.py lines 175-203: the linemod
renderer; faces are ordered by decreasing camera-space depth of their
midpoints and drawn one by one.  The per-face uv color array
(get_faces_uv_colors) is passed as a parameter: its values multiply
color_resolution and are cast to int, and play no role in the ordering. -/
def draw_color_mask {Img : Type}
    (fill : Img → List (Int × Int) → (Int × Int) → Img)
    (project : List V3 → List (ℚ × ℚ)) (img : Img) (vertices : List V3)
    (triangles : List Tri) (uv_colors : List (ℚ × ℚ)) (rotation_matrix : M3)
    (center : V3) (color_resolution : ℚ) : Img :=
  let points3d_in_reality := transform_points_linemod vertices rotation_matrix center
  let points2d_on_image := project points3d_in_reality
  let ds := camera_depths points3d_in_reality triangles
  let ordering := face_ordering ds
  let faces := ordering.map (fun k => triangles.getD k (0, 0, 0))
  let cols := ordering.map (fun k => uv_colors.getD k (0, 0))
  (faces.zip cols).foldl
    (fun im fc =>
      draw_poly fill im
        [points2d_on_image.getD fc.1.1 (0, 0), points2d_on_image.getD fc.1.2.1 (0, 0),
         points2d_on_image.getD fc.1.2.2 (0, 0)]
        (ratTrunc (color_resolution * fc.2.1), ratTrunc (color_resolution * fc.2.2)))
    img

/-- A (C, H, W) float tensor: C planes, each a list of H rows of W entries. -/
abbrev Tensor3 := List (List (List ℚ))

/-- Input handed to cv2.solvePnPRansac: paired 3d object points and 2d image
points (the camera matrix and distortion argument carry no information that
the claims depend on and are fixed state of the handler). -/
structure SolveIn where
  object_points : List V3
  image_points : List (ℚ × ℚ)

/-- Output tuple of cv2.solvePnPRansac: retval, rvec, tvec, inliers.  When no
consensus pose is found the library returns retval = false and leaves inliers
at None; rvec and tvec are ndarray outputs, None only on library failure
paths.  inliers is the (n, 1) int array of indices, flattened in the model. -/
structure SolveOut where
  retval : Bool
  rvec : Option (List (List ℚ))
  tvec : Option (List (List ℚ))
  inliers : Option (List Nat)

/-- External cv2 entry points used by the solver.  solvePnPRansac takes the
seed of the RNG that OpenCV constructs afresh inside every call. -/
structure Cv2 where
  solvePnPRansac : Nat → SolveIn → SolveOut
  rodrigues : List (List ℚ) → List (List ℚ) × List (List ℚ)

/-- The fixed seed OpenCV's RANSACPointSetRegistrator gives its local RNG on
every call (RNG((uint64)-1)), which is why repeated calls with the same data
return the same result. -/
def opencvRansacSeed : Nat := 18446744073709551615

/-- Transpose of a nested-list matrix (ndarray .T on a 2d array). -/
def matTranspose (m : List (List ℚ)) : List (List ℚ) :=
  match m with
  | [] => []
  | r0 :: _ => (withIdx r0).map (fun p => m.map (fun row => row.getD p.1 0))

/-- Attribute access .flatten() on a possibly-None ndarray: None has no
flatten attribute, so Python raises AttributeError. -/
def pyAttrFlatten (x : Option (List Nat)) : Except PyErr (List Nat) :=
  match x with
  | none => Except.error (PyErr.attributeError "NoneType.flatten")
  | some v => Except.ok v

/-- Attribute access .T on a possibly-None ndarray. -/
def pyAttrT (x : Option (List (List ℚ))) : Except PyErr (List (List ℚ)) :=
  match x with
  | none => Except.error (PyErr.attributeError "NoneType.T")
  | some m => Except.ok (matTranspose m)

/-- Attribute access .T on a Python tuple, as in cv2.Rodrigues(...).T:
tuples have no attribute T, so this raises AttributeError whatever the tuple
holds. -/
def pyTupleT {α β γ : Type} (_p : α × β) : Except PyErr γ :=
  Except.error (PyErr.attributeError "tuple.T")

/-- Result tuple of ModelsHandler.pnp_ransac_single_instance: converged flag,
inlier pixel positions, translation vector, rotation matrix. -/
abbrev SingleRet := Bool × List (ℚ × ℚ) × List (List ℚ) × List (List ℚ)

/-- The return statement of pnp_ransac_single_instance (line 231 of
src/DPOD/models_handler.py), translated expression by expression in Python
evaluation order: inliers.flatten(), image_points indexing,
translation_vector.T, then cv2.Rodrigues(rodrigues_rotation_vector.T).T,
whose final .T is attribute access on the (matrix, jacobian) tuple. -/
def singleReturnLine (cvlib : Cv2) (image_points : List (ℚ × ℚ))
    (out : SolveOut) : Except PyErr SingleRet :=
  match pyAttrFlatten out.inliers with
  | Except.error e => Except.error e
  | Except.ok inl =>
    match pyAttrT out.tvec with
    | Except.error e => Except.error e
    | Except.ok tv =>
      match pyAttrT out.rvec with
      | Except.error e => Except.error e
      | Except.ok rv =>
        match pyTupleT (cvlib.rodrigues rv) with
        | Except.error e => Except.error e
        | Except.ok rot =>
          Except.ok (out.retval, inl.map (fun i => image_points.getD i (0, 0)), tv, rot)

/-- ModelsHandler.pnp_ransac_single_instance from src/DPOD/models_handler.py
lines 203-231.  lookup models the color_to_3dpoints table built by
get_color_to_3dpoints_arrays (scipy griddata interpolation, external):
object points are looked up at the astype(int) truncations of the two color
columns of data, image points are the first two columns, and the library call
is followed by the return statement modelled by singleReturnLine. -/
def pnp_ransac_single_instance (cvlib : Cv2) (lookup : Int → Int → V3)
    (data : List (ℚ × ℚ × ℚ × ℚ)) : Except PyErr SingleRet :=
  let object_points := data.map (fun d => lookup (ratTrunc d.2.2.1) (ratTrunc d.2.2.2))
  let image_points := data.map (fun d => (d.1, d.2.1))
  singleReturnLine cvlib image_points
    (cvlib.solvePnPRansac opencvRansacSeed ⟨object_points, image_points⟩)

/-- numpy boolean indexing of a flat array: the boolean index must have the
same length as the array, otherwise IndexError. -/
def boolFlatIndex {α : Type} (xs : List α) (mask : List Bool) :
    Except PyErr (List α) :=
  if mask.length = xs.length then
    Except.ok (((xs.zip mask).filter (fun p => p.2)).map (fun p => p.1))
  else
    Except.error (PyErr.indexError "boolean index did not match indexed array")

/-- np.argwhere on a 3d boolean array: the (n, 3) array of index triples of
the true entries in row-major order. -/
def argwhere3 (m : List (List (List Bool))) : List (Nat × Nat × Nat) :=
  (withIdx m).foldr
    (fun cp acc =>
      (withIdx cp.2).foldr
        (fun ip acc2 =>
          (withIdx ip.2).foldr
            (fun jp acc3 => if jp.2 then (cp.1, ip.1, jp.1) :: acc3 else acc3)
            acc2)
        acc)
    []

/-- np.hstack applied to a 2d array (the (n, 3) argwhere output) and a 1d
array (the concatenated color values): numpy requires equal dimensionality of
the inputs to concatenate, so this combination raises ValueError for every
value of the two arguments, which the types here fix as 2d and 1d. -/
def hstack_2d_1d (_points2d : List (Nat × Nat × Nat)) (_colors : List Nat) :
    Except PyErr (List (ℚ × ℚ × ℚ × ℚ)) :=
  Except.error (PyErr.valueError "all the input array dimensions must match")

/-- ModelsHandler.pnp_ransac_single_instance2 from src/DPOD/models_handler.py
lines 233-240: np.argwhere(mask), boolean indexing of the flattened color
arrays by the flattened mask, np.hstack of the two 1d color arrays (which
concatenates them end to end), np.hstack of the 2d points2d array with the 1d
colors array, then the call to pnp_ransac_single_instance. -/
def pnp_ransac_single_instance2 (cvlib : Cv2) (lookup : Int → Int → V3)
    (color_u color_v : List (List Nat)) (mask : List (List (List Bool))) :
    Except PyErr SingleRet :=
  let points2d := argwhere3 mask
  match boolFlatIndex color_u.flatten mask.flatten.flatten with
  | Except.error e => Except.error e
  | Except.ok cu =>
    match boolFlatIndex color_v.flatten mask.flatten.flatten with
    | Except.error e => Except.error e
    | Except.ok cvv =>
      let colors := cu ++ cvv
      match hstack_2d_1d points2d colors with
      | Except.error e => Except.error e
      | Except.ok data => pnp_ransac_single_instance cvlib lookup data

/-- Index of the first occurrence of the maximum of a list (np.argmax on one
pixel's class scores).  np.argmax raises on an empty array; the empty case
returns 0 and is reached only with empty tensors, where the result feeds the
mode of an empty list, which errors anyway. -/
def argmaxList (xs : List ℚ) : Nat :=
  match xs with
  | [] => 0
  | x :: rest =>
    ((withIdx rest).foldl (fun b p => if b.2 < p.2 then (p.1 + 1, p.2) else b) (0, x)).1

/-- np.argmax(t, axis=0) for a (C, H, W) tensor: the (H, W) map of the first
plane index attaining the per-pixel maximum.  The spatial shape is read off
the first plane (numpy arrays are rectangular by construction). -/
def argmax0 (t : Tensor3) : List (List Nat) :=
  match t with
  | [] => []
  | p0 :: _ =>
    (withIdx p0).map (fun ir =>
      (withIdx ir.2).map (fun jc =>
        argmaxList (t.map (fun p => (p.getD ir.1 []).getD jc.1 0))))

/-- torch.nn.functional.softmax(t, dim=0): exp of each entry divided by the
per-pixel sum of exps over the class axis.  exp is the external transcendental
function, passed as a parameter; its true values are positive, so the real
denominator is nonzero (rational division by zero, which yields 0 in Lean,
is unreachable for such exp). -/
def softmax0 (exp : ℚ → ℚ) (t : Tensor3) : Tensor3 :=
  t.map (fun plane =>
    (withIdx plane).map (fun ir =>
      (withIdx ir.2).map (fun jc =>
        exp jc.2 / (t.map (fun p => exp ((p.getD ir.1 []).getD jc.1 0))).sum)))

/-- scipy.stats.mode followed by .mode.item(): the smallest most frequent
value of a 1d integer array; on an empty array .item() raises ValueError. -/
def modeSmallest (xs : List Nat) : Except PyErr Nat :=
  match xs with
  | [] => Except.error (PyErr.valueError "can only convert an array of size 1 to a scalar")
  | x :: _ =>
    Except.ok (xs.foldl
      (fun b v =>
        if xs.count b < xs.count v ∨ (xs.count v = xs.count b ∧ v < b) then v else b)
      x)

/-- The mask expression clasification == most_frequent_class of line 274 of
src/DPOD/models_handler.py: an elementwise comparison of the raw (C, H, W)
score tensor with the integer class id, yielding a (C, H, W) boolean tensor. -/
def eqMask (t : Tensor3) (c : Nat) : List (List (List Bool)) :=
  t.map (fun plane => plane.map (fun row => row.map (fun q => decide (q = (c : ℚ)))))

/-- Write value v at row i, column j of a plane (ndarray element assignment;
out-of-range indices leave the plane unchanged and occur only on code paths
that are already dead). -/
def set2 (plane : List (List ℚ)) (i j : Nat) (v : ℚ) : List (List ℚ) :=
  plane.set i ((plane.getD i []).set j v)

/-- probabilities[:, i, j] = 0 followed by probabilities[-1, i, j] = 1 for the
inlier pixel list, as on lines 280-281 of src/DPOD/models_handler.py;
index -1 is the last plane. -/
def assignInliers (probs : Tensor3) (inl : List (Nat × Nat)) : Tensor3 :=
  let zeroed := inl.foldl (fun p ij => p.map (fun plane => set2 plane ij.1 ij.2 0)) probs
  inl.foldl
    (fun p ij => p.set (p.length - 1) (set2 (p.getD (p.length - 1) []) ij.1 ij.2 1))
    zeroed

/-- One recovered instance: (model_id, translation_vector, rotation_matrix). -/
abbrev EngineRec := Nat × List (List ℚ) × List (List ℚ)

/-- Engine state: the three input tensors as the loop sees them, the derived
probabilities tensor created by softmax (a fresh tensor, not a view into
clasification), and the output list.  All writes the Python loop performs are
modelled as functional updates of this state, so preservation of the input
fields is a provable property rather than an assumption. -/
structure MultiState where
  clasification : Tensor3
  correspondence_u : Tensor3
  correspondence_v : Tensor3
  probabilities : Tensor3
  output : List EngineRec

/-- The while-True loop of pnp_ransac_multiple_instances (lines 265-285 of
src/DPOD/models_handler.py), with explicit fuel standing for the iteration
count.  Each iteration recomputes the pixelwise argmax of probabilities,
takes the mode of the non-background values, builds the mask
clasification == most_frequent_class, and calls the single-instance solver;
non-convergence breaks the loop, convergence records the instance and marks
its inlier pixels as background in probabilities. -/
def engineLoop (cvlib : Cv2) (lookup : Nat → Int → Int → V3)
    (color_u color_v : List (List Nat)) (background_id : Nat) :
    Nat → MultiState → Except PyErr (List EngineRec) × MultiState
  | 0, st => (Except.error PyErr.loopFuel, st)
  | Nat.succ n, st =>
    let most_probable_class_pixelwise := argmax0 st.probabilities
    let nonbg := most_probable_class_pixelwise.flatten.filter (fun v => v ≠ background_id)
    match modeSmallest nonbg with
    | Except.error e => (Except.error e, st)
    | Except.ok most_frequent_class =>
      match pnp_ransac_single_instance2 cvlib (lookup most_frequent_class) color_u
          color_v (eqMask st.clasification most_frequent_class) with
      | Except.error e => (Except.error e, st)
      | Except.ok r =>
        if r.1 = false then (Except.ok st.output, st)
        else
          engineLoop cvlib lookup color_u color_v background_id n
            { st with
              probabilities := assignInliers st.probabilities
                (r.2.1.map (fun q => ((ratTrunc q.1).toNat, (ratTrunc q.2).toNat)))
              output := st.output ++ [(most_frequent_class, r.2.2.1, r.2.2.2)] }

/-- ModelsHandler.pnp_ransac_multiple_instances from
src/DPOD/models_handler.py lines 242-285.  probabilities = softmax of the
classification scores over the class axis; color_u and color_v are the
per-pixel argmax decodings of the two correspondence tensors; background_id is
the last class index.  ambient_rng models the process-global RNG state (numpy
and OpenCV) at call time: the engine never reads or threads it, and
solvePnPRansac seeds its own RNG per call, which is what the determinism claim
rests on.  The returned pair is the Python return value (or the exception that
escapes, since the loop body has no handler) together with the final state. -/
def pnp_ransac_multiple_instances (exp : ℚ → ℚ) (cvlib : Cv2)
    (lookup : Nat → Int → Int → V3) (_ambient_rng : Nat)
    (clasification correspondence_u correspondence_v : Tensor3) (fuel : Nat) :
    Except PyErr (List EngineRec) × MultiState :=
  let probabilities := softmax0 exp clasification
  let color_u := argmax0 correspondence_u
  let color_v := argmax0 correspondence_v
  let background_id := clasification.length - 1
  engineLoop cvlib lookup color_u color_v background_id fuel
    ⟨clasification, correspondence_u, correspondence_v, probabilities, []⟩

/-- A concrete solver model whose solvePnPRansac never finds a consensus pose
(retval false, inliers None), used to exercise the non-convergence path. -/
def cvNone : Cv2 :=
  ⟨fun _ _ => ⟨false, none, none, none⟩, fun m => (m, m)⟩

/-- A concrete solver model whose solvePnPRansac always converges and fills
all of its output arrays, used to exercise the convergence path. -/
def cvConv : Cv2 :=
  ⟨fun _ _ => ⟨true, some [[0, 0, 0]], some [[0], [0], [0]], some [0]⟩, fun m => (m, m)⟩

/-- A concrete inverse-lookup table model for witnesses. -/
def lookup0 : Int → Int → V3 := fun _ _ => ⟨0, 0, 0⟩

/-- A concrete per-model inverse-lookup family for witnesses. -/
def lookupN : Nat → Int → Int → V3 := fun _ _ _ => ⟨0, 0, 0⟩

/-- A concrete (2, 1, 2) classification tensor (one object class and the
background class over a 1 x 2 image) for witnesses. -/
def clasW : Tensor3 := [[[1, 0]], [[0, 1]]]

/-- Helper: getD of a mapped list at an in-range index. -/
theorem getD_map_fn {α β : Type} (f : α → β) (l : List α) :
    ∀ (i : Nat), i < l.length → ∀ (d : β) (d2 : α),
      (l.map f).getD i d = f (l.getD i d2) := by
  induction l with
  | nil => intro i hi; simp at hi
  | cons a t ih =>
    intro i hi d d2
    cases i with
    | zero => rfl
    | succ k =>
      have hk : k < t.length := by simpa using hi
      simpa using ih k hk d d2

/-- Helper: folding fminB over embedded rationals is folding min. -/
theorem foldl_fminB_fin (t : List ℚ) : ∀ (a : ℚ),
    t.foldl (fun acc v => fminB acc (F.fin v)) (F.fin a) = F.fin (t.foldl min a) := by
  induction t with
  | nil => intro a; rfl
  | cons x s ih => intro a; simpa [fminB] using ih (min a x)

/-- Helper: folding fmaxB over embedded rationals is folding max. -/
theorem foldl_fmaxB_fin (t : List ℚ) : ∀ (a : ℚ),
    t.foldl (fun acc v => fmaxB acc (F.fin v)) (F.fin a) = F.fin (t.foldl max a) := by
  induction t with
  | nil => intro a; rfl
  | cons x s ih => intro a; simpa [fmaxB] using ih (max a x)

/-- Helper: ndarray.min() of an all-finite array is the rational minimum. -/
theorem fmin_map_fin (xs : List ℚ) (h : xs ≠ []) :
    fmin (xs.map F.fin) = F.fin (listMin xs) := by
  cases xs with
  | nil => exact absurd rfl h
  | cons x t =>
    show (t.map F.fin).foldl fminB (F.fin x) = F.fin (t.foldl min x)
    rw [List.foldl_map]
    exact foldl_fminB_fin t x

/-- Helper: ndarray.max() of an all-finite array is the rational maximum. -/
theorem fmax_map_fin (xs : List ℚ) (h : xs ≠ []) :
    fmax (xs.map F.fin) = F.fin (listMax xs) := by
  cases xs with
  | nil => exact absurd rfl h
  | cons x t =>
    show (t.map F.fin).foldl fmaxB (F.fin x) = F.fin (t.foldl max x)
    rw [List.foldl_map]
    exact foldl_fmaxB_fin t x

/-- Helper: bounds of the floor-style remainder by 256. -/
theorem q_mod_256_bounds (t : ℚ) :
    0 ≤ t - 256 * (⌊t / 256⌋ : ℚ) ∧ t - 256 * (⌊t / 256⌋ : ℚ) < 256 := by
  have h1 : (⌊t / 256⌋ : ℚ) ≤ t / 256 := Int.floor_le _
  have h2 : t / 256 < (⌊t / 256⌋ : ℚ) + 1 := Int.lt_floor_add_one _
  have h256 : (0:ℚ) < 256 := by norm_num
  have hne : (256:ℚ) ≠ 0 := by norm_num
  have h1' := mul_le_mul_of_nonneg_right h1 (le_of_lt h256)
  rw [div_mul_cancel₀ t hne] at h1'
  have h2' := mul_lt_mul_of_pos_right h2 h256
  rw [div_mul_cancel₀ t hne, add_mul, one_mul] at h2'
  constructor <;> linarith

/-- Helper: the value normalize_to_256 computes on a finite entry of an
all-finite array with nonzero extent. -/
theorem normalize_kernel (mn mx x : ℚ) (h : mx - mn ≠ 0) :
    fmod (fdiv (fmul (F.fin 256) (fsub (F.fin x) (F.fin mn)))
        (fsub (F.fin mx) (F.fin mn))) (F.fin 256) =
      F.fin (256 * (x - mn) / (mx - mn) -
        256 * (⌊256 * (x - mn) / (mx - mn) / 256⌋ : ℚ)) := by
  have h2 : (256:ℚ) ≠ 0 := by norm_num
  simp only [fsub, fmul, fdiv, fmod, if_neg h, if_neg h2]

/-- C10: on any input whose maximum exceeds its minimum, normalize_to_256
returns finite values in the half-open range from 0 to 256, and both every
position holding the maximum and every position holding the minimum are mapped
to the code 0, so the two extremes of the array receive the same code and the
encoding is not injective at the boundary. -/
theorem normalize_to_256_range_and_boundary (xs : List ℚ) (hne : xs ≠ [])
    (hlt : listMin xs < listMax xs) :
    (∀ y ∈ normalize_to_256 (xs.map F.fin), ∃ q, y = F.fin q ∧ 0 ≤ q ∧ q < 256) ∧
    (∀ i, i < xs.length → xs.getD i 0 = listMax xs →
      (normalize_to_256 (xs.map F.fin)).getD i F.nan = F.fin 0) ∧
    (∀ i, i < xs.length → xs.getD i 0 = listMin xs →
      (normalize_to_256 (xs.map F.fin)).getD i F.nan = F.fin 0) := by
  have hd : listMax xs - listMin xs ≠ 0 := sub_ne_zero.mpr (ne_of_gt hlt)
  have hmin := fmin_map_fin xs hne
  have hmax := fmax_map_fin xs hne
  have hgetD : ∀ i, i < xs.length →
      (normalize_to_256 (xs.map F.fin)).getD i F.nan =
        fmod (fdiv (fmul (F.fin 256) (fsub (F.fin (xs.getD i 0)) (fmin (xs.map F.fin))))
          (fsub (fmax (xs.map F.fin)) (fmin (xs.map F.fin)))) (F.fin 256) := by
    intro i hi
    rw [normalize_to_256]
    have hlen : i < (xs.map F.fin).length := by simpa using hi
    rw [getD_map_fn _ (xs.map F.fin) i hlen F.nan (F.fin 0)]
    rw [getD_map_fn F.fin xs i hi (F.fin 0) 0]
  refine ⟨?_, ?_, ?_⟩
  · intro y hy
    rw [normalize_to_256] at hy
    rcases List.mem_map.1 hy with ⟨z, hz, rfl⟩
    rcases List.mem_map.1 hz with ⟨v, _, rfl⟩
    rw [hmin, hmax, normalize_kernel _ _ _ hd]
    exact ⟨_, rfl, (q_mod_256_bounds _).1, (q_mod_256_bounds _).2⟩
  · intro i hi hxi
    rw [hgetD i hi, hmin, hmax, hxi, normalize_kernel _ _ _ hd]
    rw [mul_div_assoc, div_self hd, mul_one]
    norm_num
  · intro i hi hxi
    rw [hgetD i hi, hmin, hmax, hxi, normalize_kernel _ _ _ hd]
    rw [sub_self, mul_zero, zero_div]
    norm_num

/-- Witness for C10 at the concrete input 0, 2, 1: the hypotheses hold and
both the maximal entry (position 1) and the minimal entry (position 0) are
coded 0. -/
theorem normalize_to_256_range_and_boundary_witness :
    (([0, 2, 1] : List ℚ) ≠ [] ∧ listMin [0, 2, 1] < listMax [0, 2, 1]) ∧
    (normalize_to_256 (([0, 2, 1] : List ℚ).map F.fin)).getD 1 F.nan = F.fin 0 ∧
    (normalize_to_256 (([0, 2, 1] : List ℚ).map F.fin)).getD 0 F.nan = F.fin 0 := by
  refine ⟨⟨by decide, by decide⟩, ?_, ?_⟩
  · exact (normalize_to_256_range_and_boundary [0, 2, 1] (by decide) (by decide)).2.1
      1 (by decide) (by decide)
  · exact (normalize_to_256_range_and_boundary [0, 2, 1] (by decide) (by decide)).2.2
      0 (by decide) (by decide)

/-- C5: a model whose vertices all share one height raises no error in the
color codec at build time: normalize_to_256 evaluates 0/0 and silently yields
NaN codes, and astype(int) then turns NaN into the int64 sentinel value that
is handed on to the interpolator.  No DegenerateModel error exists in the
code. -/
theorem degenerate_model_silently_yields_nan :
    normalize_to_256 (([7, 7, 7] : List ℚ).map F.fin) = [F.nan, F.nan, F.nan] ∧
    fToInt F.nan = -9223372036854775808 := by
  refine ⟨?_, rfl⟩
  norm_num [normalize_to_256, fmin, fmax, fminB, fmaxB, fsub, fmul, fdiv, fmod,
    List.foldl, min_self, max_self]

/-- C4: the encode and inverse-lookup round trip fails on degModel, a model
with positive height extent: vertices 0 and 1 receive identical color codes
(the maximal height wraps to code 0, the code of the minimal height, and they
share the arctan2 angle), so whatever 3d point any inverse table stores at
that cell, its squared distance to vertex 0 or to vertex 1 is at least 1/4,
half the unit height extent squared - not a small discretization error.  The
statement quantifies over every arctan2 function and every table. -/
theorem encode_collision_defeats_roundtrip :
    ∀ (atan2 : ℚ → ℚ → F) (table : Int → Int → V3),
      cpAt atan2 0 = cpAt atan2 1 ∧
      (1/4 ≤ sqDist (table (cpAt atan2 0).2.1 (cpAt atan2 0).2.2) ⟨1, 0, 0⟩ ∨
       1/4 ≤ sqDist (table (cpAt atan2 1).2.1 (cpAt atan2 1).2.2) ⟨1, 1, 0⟩) := by
  intro atan2 table
  have hmin : fmin [F.fin 0, F.fin 1, F.fin (1/2)] = F.fin 0 := by
    show fminB (fminB (F.fin 0) (F.fin 1)) (F.fin (1/2)) = F.fin 0
    norm_num [fminB, min_def]
  have hmax : fmax [F.fin 0, F.fin 1, F.fin (1/2)] = F.fin 1 := by
    show fmaxB (fmaxB (F.fin 0) (F.fin 1)) (F.fin (1/2)) = F.fin 1
    norm_num [fmaxB, max_def]
  have k0 : fmod (fdiv (fmul (F.fin 256) (fsub (F.fin 0) (F.fin 0)))
      (fsub (F.fin 1) (F.fin 0))) (F.fin 256) = F.fin 0 := by
    rw [normalize_kernel 0 1 0 (by norm_num)]
    norm_num
  have k1 : fmod (fdiv (fmul (F.fin 256) (fsub (F.fin 1) (F.fin 0)))
      (fsub (F.fin 1) (F.fin 0))) (F.fin 256) = F.fin 0 := by
    rw [normalize_kernel 0 1 1 (by norm_num)]
    rw [mul_div_assoc, div_self (by norm_num : (1:ℚ) - 0 ≠ 0), mul_one]
    norm_num
  have hcol : cpAt atan2 0 = cpAt atan2 1 := by
    simp only [cpAt, color_points, degModel, List.map_cons, List.map_nil,
      normalize_to_256, List.zip_cons_cons, List.zip_nil_right,
      List.getD_cons_zero, List.getD_cons_succ]
    simp only [hmin, hmax, k0, k1]
  refine ⟨hcol, ?_⟩
  rw [hcol]
  set p := table (cpAt atan2 1).2.1 (cpAt atan2 1).2.2 with hp
  rcases le_or_lt p.y (1/2) with hy | hy
  · right
    have h1 : (0:ℚ) ≤ 1/2 - p.y := by linarith
    have h2 : (0:ℚ) ≤ 3/2 - p.y := by linarith
    simp only [sqDist]
    nlinarith [sq_nonneg (p.x - 1), sq_nonneg p.z, mul_nonneg h1 h2]
  · left
    have h1 : (0:ℚ) ≤ p.y - 1/2 := by linarith
    have h2 : (0:ℚ) ≤ p.y + 1/2 := by linarith
    simp only [sqDist]
    nlinarith [sq_nonneg (p.x - 1), sq_nonneg p.z, mul_nonneg h1 h2]

/-- Helper: every path of the translated return statement raises
AttributeError (NoneType.flatten when inliers is missing, NoneType.T when
tvec or rvec is missing, tuple.T after cv2.Rodrigues otherwise). -/
theorem singleReturnLine_raises (cvlib : Cv2) (ips : List (ℚ × ℚ)) (out : SolveOut) :
    ∃ s, singleReturnLine cvlib ips out = Except.error (PyErr.attributeError s) := by
  rcases out with ⟨rtv, rv, tv, inl⟩
  cases inl <;> cases tv <;> cases rv <;>
    simp [singleReturnLine, pyAttrFlatten, pyAttrT, pyTupleT]

/-- Helper: the return statement never consults the solver library fields
beyond the out argument, since the tuple attribute access raises first. -/
theorem singleReturnLine_indep (cvA cvB : Cv2) (ips : List (ℚ × ℚ)) (out : SolveOut) :
    singleReturnLine cvA ips out = singleReturnLine cvB ips out := by
  rcases out with ⟨rtv, rv, tv, inl⟩
  cases inl <;> cases tv <;> cases rv <;>
    simp [singleReturnLine, pyAttrFlatten, pyAttrT, pyTupleT]

/-- C2: when the external RANSAC finds no pose meeting its inlier threshold
(retval false with inliers left at None, the cv2.solvePnPRansac failure
signature), pnp_ransac_single_instance does not return normally with
converged false: evaluating inliers.flatten() on None raises AttributeError,
and pnp_ransac_multiple_instances contains no handler for it, so the engine
cannot stop gracefully on non-convergence. -/
theorem nonconvergence_raises_instead_of_returning (cvlib : Cv2)
    (lookup : Int → Int → V3) (data : List (ℚ × ℚ × ℚ × ℚ))
    (h : ∀ seed inp, (cvlib.solvePnPRansac seed inp).inliers = none) :
    pnp_ransac_single_instance cvlib lookup data =
      Except.error (PyErr.attributeError "NoneType.flatten") := by
  simp only [pnp_ransac_single_instance]
  simp [singleReturnLine, pyAttrFlatten, h]

/-- Witness for C2: the constant non-converging solver model satisfies the
hypothesis and the call raises instead of returning. -/
theorem nonconvergence_raises_witness :
    (∀ seed inp, (cvNone.solvePnPRansac seed inp).inliers = none) ∧
    pnp_ransac_single_instance cvNone lookup0 [(0, 0, 0, 0)] =
      Except.error (PyErr.attributeError "NoneType.flatten") :=
  ⟨fun _ _ => rfl,
   nonconvergence_raises_instead_of_returning cvNone lookup0 [(0, 0, 0, 0)]
     (fun _ _ => rfl)⟩

/-- C7: on every input where the solver converges (retval true with all
output arrays present), pnp_ransac_single_instance raises AttributeError at
cv2.Rodrigues(...).T - attribute access on the (matrix, jacobian) tuple -
instead of returning, so the claimed guarantees about the returned inliers
and rotation matrix are never delivered. -/
theorem converged_solver_raises_before_returning (cvlib : Cv2)
    (lookup : Int → Int → V3) (data : List (ℚ × ℚ × ℚ × ℚ))
    (rv tv : List (List ℚ)) (inl : List Nat)
    (h : ∀ seed inp, cvlib.solvePnPRansac seed inp =
      ⟨true, some rv, some tv, some inl⟩) :
    pnp_ransac_single_instance cvlib lookup data =
      Except.error (PyErr.attributeError "tuple.T") := by
  simp only [pnp_ransac_single_instance, h]
  simp [singleReturnLine, pyAttrFlatten, pyAttrT, pyTupleT]

/-- Witness for C7: the constant converging solver model satisfies the
hypothesis and the call still raises. -/
theorem converged_solver_raises_witness :
    (∀ seed inp, cvConv.solvePnPRansac seed inp =
      ⟨true, some [[0, 0, 0]], some [[0], [0], [0]], some [0]⟩) ∧
    pnp_ransac_single_instance cvConv lookup0 [(0, 0, 0, 0)] =
      Except.error (PyErr.attributeError "tuple.T") :=
  ⟨fun _ _ => rfl,
   converged_solver_raises_before_returning cvConv lookup0 [(0, 0, 0, 0)]
     [[0, 0, 0]] [[0], [0], [0]] [0] (fun _ _ => rfl)⟩

/-- Helper: pnp_ransac_single_instance2 reduces to an error that depends only
on the two boolean-indexing length checks: IndexError if a mask length
differs from a color array length, otherwise the unconditional hstack
ValueError; the solver call after hstack is dead code. -/
theorem single2_eq (cvlib : Cv2) (lookup : Int → Int → V3)
    (color_u color_v : List (List Nat)) (mask : List (List (List Bool))) :
    pnp_ransac_single_instance2 cvlib lookup color_u color_v mask =
      (match boolFlatIndex color_u.flatten mask.flatten.flatten with
       | Except.error e => Except.error e
       | Except.ok _ =>
         match boolFlatIndex color_v.flatten mask.flatten.flatten with
         | Except.error e => Except.error e
         | Except.ok _ =>
           Except.error (PyErr.valueError "all the input array dimensions must match")) := by
  cases h1 : boolFlatIndex color_u.flatten mask.flatten.flatten with
  | error e => simp [pnp_ransac_single_instance2, h1]
  | ok cu =>
    cases h2 : boolFlatIndex color_v.flatten mask.flatten.flatten with
    | error e => simp [pnp_ransac_single_instance2, h1, h2]
    | ok cvv => simp [pnp_ransac_single_instance2, h1, h2, hstack_2d_1d]

/-- Helper: pnp_ransac_single_instance2 raises on every input. -/
theorem single2_raises (cvlib : Cv2) (lookup : Int → Int → V3)
    (color_u color_v : List (List Nat)) (mask : List (List (List Bool))) :
    ∃ e, pnp_ransac_single_instance2 cvlib lookup color_u color_v mask =
      Except.error e := by
  rw [single2_eq]
  cases boolFlatIndex color_u.flatten mask.flatten.flatten with
  | error e => exact ⟨e, rfl⟩
  | ok cu =>
    cases boolFlatIndex color_v.flatten mask.flatten.flatten with
    | error e => exact ⟨e, rfl⟩
    | ok cvv => exact ⟨_, rfl⟩

/-- Helper: the result of pnp_ransac_single_instance2 does not depend on the
solver library. -/
theorem single2_indep (cvA cvB : Cv2) (lookup : Int → Int → V3)
    (color_u color_v : List (List Nat)) (mask : List (List (List Bool))) :
    pnp_ransac_single_instance2 cvA lookup color_u color_v mask =
      pnp_ransac_single_instance2 cvB lookup color_u color_v mask := by
  rw [single2_eq, single2_eq]

/-- Helper: one engine iteration raises whatever the state, so the loop never
reaches the solver and its result is independent of the solver library. -/
theorem engineLoop_indep (cvA cvB : Cv2) (lookup : Nat → Int → Int → V3)
    (cu cvv : List (List Nat)) (bg : Nat) (fuel : Nat) (st : MultiState) :
    engineLoop cvA lookup cu cvv bg fuel st = engineLoop cvB lookup cu cvv bg fuel st := by
  cases fuel with
  | zero => rfl
  | succ n =>
    simp only [engineLoop]
    split
    · rfl
    next mfc heq =>
      rw [single2_indep cvA cvB (lookup mfc) cu cvv (eqMask st.clasification mfc)]
      obtain ⟨e, he⟩ :=
        single2_raises cvB (lookup mfc) cu cvv (eqMask st.clasification mfc)
      rw [he]

/-- Helper: the engine loop never produces a normal return value. -/
theorem engineLoop_never_ok (cvlib : Cv2) (lookup : Nat → Int → Int → V3)
    (cu cvv : List (List Nat)) (bg : Nat) (fuel : Nat) (st : MultiState)
    (out : List EngineRec) :
    (engineLoop cvlib lookup cu cvv bg fuel st).1 ≠ Except.ok out := by
  cases fuel with
  | zero => simp [engineLoop]
  | succ n =>
    simp only [engineLoop]
    split
    · simp
    next mfc heq =>
      obtain ⟨e, he⟩ :=
        single2_raises cvlib (lookup mfc) cu cvv (eqMask st.clasification mfc)
      rw [he]
      simp

/-- Helper: the loop only ever writes the probabilities and output fields of
the state; the three input tensors pass through unchanged. -/
theorem engineLoop_preserves_inputs (cvlib : Cv2) (lookup : Nat → Int → Int → V3)
    (cu cvv : List (List Nat)) (bg : Nat) :
    ∀ (fuel : Nat) (st : MultiState),
      (engineLoop cvlib lookup cu cvv bg fuel st).2.clasification = st.clasification ∧
      (engineLoop cvlib lookup cu cvv bg fuel st).2.correspondence_u = st.correspondence_u ∧
      (engineLoop cvlib lookup cu cvv bg fuel st).2.correspondence_v = st.correspondence_v := by
  intro fuel
  induction fuel with
  | zero => intro st; exact ⟨rfl, rfl, rfl⟩
  | succ n ih =>
    intro st
    simp only [engineLoop]
    split
    · exact ⟨rfl, rfl, rfl⟩
    next mfc heq =>
      split
      · exact ⟨rfl, rfl, rfl⟩
      next r heq2 =>
        split
        · exact ⟨rfl, rfl, rfl⟩
        · exact ih _

/-- C1: no pixel set is ever handed to the pose solver.  The engine builds
its mask as clasification == most_frequent_class over the raw (C, H, W) score
tensor (eqMask), not as the set of unassigned argmax pixels, and
pnp_ransac_single_instance2 raises while boolean-indexing the (H, W) color
arrays with it before any solver invocation - for every mask and every
solver; consequently the whole engine result is independent of the solver
library. -/
theorem solver_never_receives_pixels :
    ∀ (cvA cvB : Cv2) (lookup : Int → Int → V3)
      (color_u color_v : List (List Nat)) (mask : List (List (List Bool))),
      pnp_ransac_single_instance2 cvA lookup color_u color_v mask =
        pnp_ransac_single_instance2 cvB lookup color_u color_v mask ∧
      (∃ e, pnp_ransac_single_instance2 cvA lookup color_u color_v mask =
        Except.error e) ∧
      ∀ (exp : ℚ → ℚ) (lk : Nat → Int → Int → V3) (rng : Nat)
        (clas cu cvv : Tensor3) (fuel : Nat),
        pnp_ransac_multiple_instances exp cvA lk rng clas cu cvv fuel =
          pnp_ransac_multiple_instances exp cvB lk rng clas cu cvv fuel := by
  intro cvA cvB lookup color_u color_v mask
  refine ⟨single2_indep cvA cvB lookup color_u color_v mask,
    single2_raises cvA lookup color_u color_v mask, ?_⟩
  intro exp lk rng clas cu cvv fuel
  exact engineLoop_indep cvA cvB lk (argmax0 cu) (argmax0 cvv) (clas.length - 1) fuel _

/-- C3: the multi-instance loop never completes normally: for every input and
every iteration budget the run ends in an exception (IndexError from the mask
indexing, or ValueError from hstack or from the mode of an empty array),
never in a returned instance list.  The claimed progress argument - each
recorded instance removes a pixel from the solver pool - also has no
counterpart in the code: the mask is rebuilt from the immutable clasification
tensor, not from the updated probabilities. -/
theorem multi_instance_loop_never_returns_normally :
    ∀ (exp : ℚ → ℚ) (cvlib : Cv2) (lookup : Nat → Int → Int → V3) (rng : Nat)
      (clas cu cvv : Tensor3) (fuel : Nat) (out : List EngineRec),
      (pnp_ransac_multiple_instances exp cvlib lookup rng clas cu cvv fuel).1 ≠
        Except.ok out := by
  intro exp cvlib lookup rng clas cu cvv fuel out
  exact engineLoop_never_ok cvlib lookup (argmax0 cu) (argmax0 cvv)
    (clas.length - 1) fuel _ out

/-- C9: the engine never mutates its input tensors: after any run - normal or
exceptional, for any fuel - the classification tensor and both correspondence
tensors in the final state are exactly the ones passed in; the only tensor
written is the probabilities tensor freshly created by softmax. -/
theorem engine_preserves_input_tensors :
    ∀ (exp : ℚ → ℚ) (cvlib : Cv2) (lookup : Nat → Int → Int → V3) (rng : Nat)
      (clas cu cvv : Tensor3) (fuel : Nat),
      (pnp_ransac_multiple_instances exp cvlib lookup rng clas cu cvv fuel).2.clasification
          = clas ∧
      (pnp_ransac_multiple_instances exp cvlib lookup rng clas cu cvv fuel).2.correspondence_u
          = cu ∧
      (pnp_ransac_multiple_instances exp cvlib lookup rng clas cu cvv fuel).2.correspondence_v
          = cvv := by
  intro exp cvlib lookup rng clas cu cvv fuel
  exact engineLoop_preserves_inputs cvlib lookup (argmax0 cu) (argmax0 cvv)
    (clas.length - 1) fuel ⟨clas, cu, cvv, softmax0 exp clas, []⟩

/-- C8: determinism of the engine.  First conjunct: the engine result does
not depend on the ambient process RNG state, which it never reads or seeds,
so two runs on identical inputs agree.  Second conjunct:
pnp_ransac_single_instance depends on the solver library only through its
behaviour at opencvRansacSeed, the seed OpenCV fixes per call, so the library
RANSAC sampling cannot differ between runs either. -/
theorem engine_run_determinism :
    (∀ (exp : ℚ → ℚ) (cvlib : Cv2) (lookup : Nat → Int → Int → V3)
       (rng1 rng2 : Nat) (clas cu cvv : Tensor3) (fuel : Nat),
       pnp_ransac_multiple_instances exp cvlib lookup rng1 clas cu cvv fuel =
         pnp_ransac_multiple_instances exp cvlib lookup rng2 clas cu cvv fuel) ∧
    (∀ (cvA cvB : Cv2) (lookup : Int → Int → V3) (data : List (ℚ × ℚ × ℚ × ℚ)),
       (∀ inp, cvA.solvePnPRansac opencvRansacSeed inp =
         cvB.solvePnPRansac opencvRansacSeed inp) →
       pnp_ransac_single_instance cvA lookup data =
         pnp_ransac_single_instance cvB lookup data) := by
  constructor
  · intro exp cvlib lookup rng1 rng2 clas cu cvv fuel
    rfl
  · intro cvA cvB lookup data h
    show singleReturnLine cvA (data.map (fun d => (d.1, d.2.1)))
        (cvA.solvePnPRansac opencvRansacSeed
          ⟨data.map (fun d => lookup (ratTrunc d.2.2.1) (ratTrunc d.2.2.2)),
           data.map (fun d => (d.1, d.2.1))⟩) =
      singleReturnLine cvB (data.map (fun d => (d.1, d.2.1)))
        (cvB.solvePnPRansac opencvRansacSeed
          ⟨data.map (fun d => lookup (ratTrunc d.2.2.1) (ratTrunc d.2.2.2)),
           data.map (fun d => (d.1, d.2.1))⟩)
    rw [h]
    exact singleReturnLine_indep cvA cvB _ _

/-- Witness for C8 at concrete inputs: two runs with different ambient RNG
states agree, and the solver-slice condition holds reflexively. -/
theorem engine_run_determinism_witness :
    pnp_ransac_multiple_instances (fun q => q) cvNone lookupN 0 clasW clasW clasW 1 =
      pnp_ransac_multiple_instances (fun q => q) cvNone lookupN 1 clasW clasW clasW 1 ∧
    pnp_ransac_single_instance cvNone lookup0 [(0, 0, 0, 0)] =
      pnp_ransac_single_instance cvNone lookup0 [(0, 0, 0, 0)] :=
  ⟨engine_run_determinism.1 (fun q => q) cvNone lookupN 0 1 clasW clasW clasW 1,
   engine_run_determinism.2 cvNone cvNone lookup0 [(0, 0, 0, 0)] (fun _ => rfl)⟩

/-- Helper: the face ordering lists the depths in non-increasing order. -/
theorem face_ordering_sorted (ds : List ℚ) :
    List.Sorted (fun a b => b ≤ a)
      ((face_ordering ds).map (fun k => ds.getD k 0)) := by
  haveI h1 : IsTotal Nat (fun i j => ds.getD j 0 ≤ ds.getD i 0) :=
    ⟨fun a b => le_total (ds.getD b 0) (ds.getD a 0)⟩
  haveI h2 : IsTrans Nat (fun i j => ds.getD j 0 ≤ ds.getD i 0) :=
    ⟨fun a b c hab hbc => le_trans hbc hab⟩
  have hs : List.Sorted (fun i j => ds.getD j 0 ≤ ds.getD i 0) (face_ordering ds) :=
    List.sorted_insertionSort _ _
  exact List.pairwise_map.2 hs

/-- C6: both renderers fill face triangles in order of non-increasing
camera-space depth of their midpoints: draw_model is definitionally
draw_triangles applied to the triangles and colors reordered by face_ordering
of the midpoint depths, and the depth sequence in that paint order is sorted
non-increasingly, under the kaggle transform and the linemod transform alike
(draw_color_mask uses the same face_ordering over transform_points_linemod). -/
theorem renderer_paints_back_to_front {Img : Type} :
    ∀ (fill : Img → ((Int × Int) × (Int × Int) × (Int × Int)) → (Int × Int × Int) → Img)
      (project : List V3 → List (ℚ × ℚ)) (atan2 : ℚ → ℚ → F) (img : Img)
      (model_id : Int) (vertices : List V3) (triangles : List Tri)
      (translation_vector center : V3) (rotation_matrix : M3),
      draw_model fill project atan2 img model_id vertices triangles
          translation_vector rotation_matrix =
        draw_triangles fill img
          (project (transform_points vertices rotation_matrix translation_vector))
          ((face_ordering (camera_depths
              (transform_points vertices rotation_matrix translation_vector)
              triangles)).map (fun k => triangles.getD k (0, 0, 0)))
          ((face_ordering (camera_depths
              (transform_points vertices rotation_matrix translation_vector)
              triangles)).map (fun k =>
            (get_model_face_to_color_array atan2 model_id vertices
              triangles).getD k (0, 0, 0))) ∧
      List.Sorted (fun a b => b ≤ a)
        ((face_ordering (camera_depths
            (transform_points vertices rotation_matrix translation_vector)
            triangles)).map (fun k =>
          (camera_depths (transform_points vertices rotation_matrix
            translation_vector) triangles).getD k 0)) ∧
      List.Sorted (fun a b => b ≤ a)
        ((face_ordering (camera_depths
            (transform_points_linemod vertices rotation_matrix center)
            triangles)).map (fun k =>
          (camera_depths (transform_points_linemod vertices rotation_matrix
            center) triangles).getD k 0)) ∧
      ∀ (fill2 : Img → List (Int × Int) → (Int × Int) → Img)
        (uv_colors : List (ℚ × ℚ)) (res : ℚ),
        draw_color_mask fill2 project img vertices triangles uv_colors
            rotation_matrix center res =
          (((face_ordering (camera_depths
              (transform_points_linemod vertices rotation_matrix center)
              triangles)).map (fun k => triangles.getD k (0, 0, 0))).zip
            ((face_ordering (camera_depths
              (transform_points_linemod vertices rotation_matrix center)
              triangles)).map (fun k => uv_colors.getD k (0, 0)))).foldl
            (fun im fc =>
              draw_poly fill2 im
                [(project (transform_points_linemod vertices rotation_matrix
                    center)).getD fc.1.1 (0, 0),
                 (project (transform_points_linemod vertices rotation_matrix
                    center)).getD fc.1.2.1 (0, 0),
                 (project (transform_points_linemod vertices rotation_matrix
                    center)).getD fc.1.2.2 (0, 0)]
                (ratTrunc (res * fc.2.1), ratTrunc (res * fc.2.2)))
            img := by
  intro fill project atan2 img model_id vertices triangles translation_vector center
    rotation_matrix
  exact ⟨rfl, face_ordering_sorted _, face_ordering_sorted _, fun _ _ _ => rfl⟩
